import Mathlib

/-!
Shallow embedding of the console notification subsystem of `ouch`
(`src/macros.rs`): the `info!` and `warning!` macros, their helpers
`_info_helper` and `_warning_helper`, and the process-wide accessibility
flag `crate::cli::ACCESSIBLE` they read.

Modelling choices:
* `ACCESSIBLE` is a `OnceCell<bool>`-style value, embedded as `Option Bool`;
  `ACCESSIBLE.get().unwrap()` on an unset cell panics, embedded as the
  `Option` monad returning `none`.
* An output handle is embedded as the `String` of bytes written to it so
  far; a write appends.  `warning!` touches two process streams (stdout via
  `print!`, stderr via `eprintln!`), embedded as a `Streams` pair.
* `writeln!`/`eprintln!` append the formatted message followed by `"\n"`.
-/

namespace Ouch

/-- Modelled from the spec: the module `crate::utils::colors` is not under
`src/`; the spec describes YELLOW as an opaque terminal escape-sequence
string constant.  A concrete ANSI escape sequence stands in for the opaque
value. -/
def YELLOW : String := "\x1b[38;5;11m"

/-- Modelled from the spec: the ORANGE color token of `crate::utils::colors`
(module not under `src/`), an opaque terminal escape-sequence string. -/
def ORANGE : String := "\x1b[38;5;208m"

/-- Modelled from the spec: the RESET color token of `crate::utils::colors`
(module not under `src/`), an opaque terminal escape-sequence string. -/
def RESET : String := "\x1b[39m"

/-- The two arms of the `info!` macro: `info!(accessible, ...)` and
`info!(inaccessible, ...)`. -/
inductive Importance where
  | accessible
  | inaccessible
deriving DecidableEq

/-- Bytes written so far to the two process streams used by `warning!`:
`out` is standard output, `err` is standard error. -/
structure Streams where
  out : String
  err : String
deriving DecidableEq

/-- `print!(s)`: append `s` to standard output. -/
def printToStdout (s : String) (w : Streams) : Streams :=
  { w with out := w.out ++ s }

/-- `eprintln!(m)`: append `m` followed by a newline to standard error. -/
def eprintlnToStderr (m : String) (w : Streams) : Streams :=
  { w with err := w.err ++ (m ++ "\n") }

/-- The bytes written by `_info_helper`:
`write!(handle, "{}[INFO]{} ", *YELLOW, *RESET)`. -/
def infoHelperStr : String := YELLOW ++ "[INFO]" ++ RESET ++ " "

/-- The `info!` macro (both display arms), acting on the display handle's
byte buffer `buf`.  `flag` is `crate::cli::ACCESSIBLE`; the `unwrap` of an
unset cell is the `none` outcome, and it happens before any write in both
arms.

`accessible` arm: `if !(*ACCESSIBLE.get().unwrap()) { _info_helper(h) };
writeln!(h, ...)`.
`inaccessible` arm: `if !ACCESSIBLE.get().unwrap() { _info_helper(h);
writeln!(h, ...) }`. -/
def infoReport (flag : Option Bool) (imp : Importance) (m : String)
    (buf : String) : Option String :=
  match imp with
  | .accessible => do
      let b ← flag
      let buf := if !b then buf ++ infoHelperStr else buf
      pure (buf ++ (m ++ "\n"))
  | .inaccessible => do
      let b ← flag
      if !b then
        pure ((buf ++ infoHelperStr) ++ (m ++ "\n"))
      else
        pure buf

/-- The prefix string `_warning_helper` prints:
`"{}Warning:{} "` with ORANGE/RESET when the flag is `false`,
`"{}[WARNING]{} "` with ORANGE/RESET when it is `true`. -/
def warnPrefixStr (b : Bool) : String :=
  if !b then ORANGE ++ "Warning:" ++ RESET ++ " "
  else ORANGE ++ "[WARNING]" ++ RESET ++ " "

/-- `_warning_helper()`: unwraps `ACCESSIBLE` (panics when unset), then
`print!`s the colored prefix to standard output. -/
def warningHelper (flag : Option Bool) (w : Streams) : Option Streams := do
  let b ← flag
  if !b then
    pure (printToStdout (ORANGE ++ "Warning:" ++ RESET ++ " ") w)
  else
    pure (printToStdout (ORANGE ++ "[WARNING]" ++ RESET ++ " ") w)

/-- The `warning!` macro: `_warning_helper(); eprintln!($($arg)*)`. -/
def warningReport (flag : Option Bool) (m : String) (w : Streams) :
    Option Streams := do
  let w ← warningHelper flag w
  pure (eprintlnToStderr m w)

/-- The complete visible output of one `warning!` call on an empty
terminal: bytes sent to standard output followed by bytes sent to standard
error (empty when the call panics). -/
def warningVisible (b : Bool) (m : String) : String :=
  match warningReport (some b) m ⟨"", ""⟩ with
  | none => ""
  | some w => w.out ++ w.err

/-- The sequence of `write!`/`writeln!` calls one `info!` invocation issues
to its display handle, in order. -/
def infoWriteOps (b : Bool) (imp : Importance) (m : String) : List String :=
  match imp with
  | .accessible => (if !b then [infoHelperStr] else []) ++ [m ++ "\n"]
  | .inaccessible => if !b then [infoHelperStr, m ++ "\n"] else []

/-- Which stream a write of `warning!` targets. -/
inductive Chan where
  | stdout
  | stderr
deriving DecidableEq

/-- The sequence of stream writes one `warning!` invocation issues, in
order: the colored prefix to stdout, then the message line to stderr. -/
def warnWriteOps (b : Bool) (m : String) : List (Chan × String) :=
  [(Chan.stdout, warnPrefixStr b), (Chan.stderr, m ++ "\n")]

/-- Execute a sequence of write operations against a sink in which the
write with index `i` fails exactly when `failAt i` is true.  Each `write!`
is `.unwrap()`ed, so the first failure panics: the result is the list of
operations actually performed, paired with `true` on success and `false`
when a write failed (the panic). -/
def runWrites (failAt : Nat → Bool) : Nat → List α → List α × Bool
  | _, [] => ([], true)
  | i, op :: ops =>
      if failAt i then ([], false)
      else
        let r := runWrites failAt (i + 1) ops
        (op :: r.1, r.2)

lemma warningHelper_some (b : Bool) (w : Streams) :
    warningHelper (some b) w = some (printToStdout (warnPrefixStr b) w) := by
  cases b <;> rfl

lemma warningReport_some (b : Bool) (m : String) (w : Streams) :
    warningReport (some b) m w =
      some ⟨w.out ++ warnPrefixStr b, w.err ++ (m ++ "\n")⟩ := by
  cases b <;> rfl

lemma warnPrefixStr_ne_empty (b : Bool) : warnPrefixStr b ≠ "" := by
  cases b <;> decide

lemma append_newline_ne_empty (m : String) : m ++ "\n" ≠ "" := by
  intro h
  have h' := congrArg String.length h
  rw [String.length_append] at h'
  have h1 : String.length "\n" = 1 := rfl
  have h0 : String.length "" = 0 := rfl
  omega

lemma runWrites_steps (f : Nat → Bool) (i : Nat) (ops : List α) :
    ∃ rest, ops = (runWrites f i ops).1 ++ rest := by
  induction ops generalizing i with
  | nil => exact ⟨[], rfl⟩
  | cons op ops ih =>
      by_cases h : f i = true
      · exact ⟨op :: ops, by simp [runWrites, h]⟩
      · obtain ⟨rest, hrest⟩ := ih (i + 1)
        exact ⟨rest, by simp [runWrites, h]; exact hrest⟩

/-- C1 counterexample: the bytes `warning!` sends to standard error do not
begin with the colored prefix — at message `"x"` and either flag value,
the standard-error bytes are not the prefix followed by the message (with
or without the trailing newline); the prefix goes to standard output
instead. -/
theorem warning_prefix_not_on_stderr_cex :
    (warningReport (some false) "x" ⟨"", ""⟩).map Streams.err ≠
        some (warnPrefixStr false ++ "x" ++ "\n") ∧
    (warningReport (some false) "x" ⟨"", ""⟩).map Streams.err ≠
        some (warnPrefixStr false ++ "x") ∧
    (warningReport (some true) "x" ⟨"", ""⟩).map Streams.err ≠
        some (warnPrefixStr true ++ "x" ++ "\n") ∧
    (warningReport (some true) "x" ⟨"", ""⟩).map Streams.err ≠
        some (warnPrefixStr true ++ "x") := by
  decide

/-- C1 (amended): for every message and both flag values, `warning!`
writes its colored prefix to standard output and the message followed by a
newline to standard error; both deltas are non-empty, so warning output is
never suppressed. -/
theorem warning_never_suppressed (b : Bool) (m : String) (w : Streams) :
    warningReport (some b) m w =
        some ⟨w.out ++ warnPrefixStr b, w.err ++ (m ++ "\n")⟩ ∧
    warnPrefixStr b ≠ "" ∧ m ++ "\n" ≠ "" :=
  ⟨warningReport_some b m w, warnPrefixStr_ne_empty b, append_newline_ne_empty m⟩

/-- C2 counterexample: at the empty message, the visible warning output
does not match the claimed byte-exact formats that place the space before
the RESET token, with or without the trailing newline, for either flag
value. -/
theorem warning_format_cex :
    warningVisible false "" ≠ ORANGE ++ "Warning: " ++ RESET ∧
    warningVisible false "" ≠ ORANGE ++ "Warning: " ++ RESET ++ "\n" ∧
    warningVisible true "" ≠ ORANGE ++ "[WARNING] " ++ RESET ∧
    warningVisible true "" ≠ ORANGE ++ "[WARNING] " ++ RESET ++ "\n" := by
  decide

/-- C2 (amended): for every message, the complete visible warning output
is the ORANGE token, the bare tag (`"Warning:"` when the flag is false,
`"[WARNING]"` when true), the RESET token, then a space, then the message,
then a newline — the space sits after the RESET token, not before it. -/
theorem warning_visible_format (m : String) :
    warningVisible false m = ORANGE ++ "Warning:" ++ RESET ++ " " ++ m ++ "\n" ∧
    warningVisible true m = ORANGE ++ "[WARNING]" ++ RESET ++ " " ++ m ++ "\n" := by
  constructor <;>
    simp [warningVisible, warningReport_some, warnPrefixStr,
      String.empty_append, String.append_assoc]

/-- C3: for every message `m`, `info!(accessible, ...)` with the flag
false writes to the sink exactly `YELLOW ++ "[INFO]" ++ RESET ++ " "`
followed by `m` and a trailing newline. -/
theorem info_accessible_flag_false_format (m : String) :
    infoReport (some false) .accessible m "" =
      some (YELLOW ++ "[INFO]" ++ RESET ++ " " ++ m ++ "\n") := by
  simp [infoReport, infoHelperStr, String.empty_append, String.append_assoc]

/-- C4: for every message `m`, `info!(accessible, ...)` with the flag true
writes exactly `m` plus a trailing newline and nothing else — no
`"[INFO]"` prefix, no color tokens. -/
theorem info_accessible_flag_true_format (m : String) :
    infoReport (some true) .accessible m "" = some (m ++ "\n") := by
  simp [infoReport, String.empty_append]

/-- C5: for every message `m` and every sink state, `info!(inaccessible,
...)` with the flag true leaves the sink untouched and issues no write
operation at all. -/
theorem info_inaccessible_flag_true_silent (m : String) (buf : String) :
    infoReport (some true) .inaccessible m buf = some buf ∧
    infoWriteOps true .inaccessible m = [] :=
  ⟨rfl, rfl⟩

/-- C6: for every message `m` and every sink state, the inaccessible and
accessible arms of `info!` produce byte-identical sink output when the
flag is false. -/
theorem info_arms_agree_flag_false (m : String) (buf : String) :
    infoReport (some false) .inaccessible m buf =
      infoReport (some false) .accessible m buf :=
  rfl

/-- C7: when the accessibility flag has never been set, every reporter
call panics (the `unwrap` of the unset cell) instead of returning
normally: both `info!` arms and `warning!` yield `none`. -/
theorem reporters_panic_uninitialized (imp : Importance) (m : String)
    (buf : String) (w : Streams) :
    infoReport none imp m buf = none ∧ warningReport none m w = none := by
  refine ⟨?_, rfl⟩
  cases imp <;> rfl

/-- C8: when the first write of a reporter call fails, the call panics at
once: nothing is written (in particular the message bytes never reach the
sink), a call that performed writes and reports success is impossible,
`warning!` likewise panics having written nothing, and in general the
writes actually performed are an in-order prefix of the intended sequence
— no write is retried or reordered. -/
theorem write_failure_fatal (f : Nat → Bool) (b : Bool) (imp : Importance)
    (m : String) (h : f 0 = true) :
    (runWrites f 0 (infoWriteOps b imp m)).1 = [] ∧
    ((runWrites f 0 (infoWriteOps b imp m)).2 = true →
      infoWriteOps b imp m = []) ∧
    runWrites f 0 (warnWriteOps b m) = ([], false) ∧
    (∀ (g : Nat → Bool) (i : Nat) (ops : List String),
      ∃ rest, ops = (runWrites g i ops).1 ++ rest) := by
  refine ⟨?_, ?_, ?_, fun g i ops => runWrites_steps g i ops⟩
  · cases hops : infoWriteOps b imp m with
    | nil => simp [runWrites]
    | cons op ops => simp [runWrites, h]
  · cases hops : infoWriteOps b imp m with
    | nil => intro; rfl
    | cons op ops => simp [runWrites, h]
  · simp [runWrites, warnWriteOps, h]

/-- Witness for C8 at a concrete failing sink: every write fails, the flag
is false, the arm is accessible and the message is `"x"`. -/
theorem write_failure_fatal_witness :
    (fun _ : Nat => true) 0 = true ∧
    ((runWrites (fun _ => true) 0 (infoWriteOps false .accessible "x")).1 = [] ∧
     ((runWrites (fun _ => true) 0 (infoWriteOps false .accessible "x")).2 = true →
       infoWriteOps false .accessible "x" = []) ∧
     runWrites (fun _ => true) 0 (warnWriteOps false "x") = ([], false) ∧
     (∀ (g : Nat → Bool) (i : Nat) (ops : List String),
       ∃ rest, ops = (runWrites g i ops).1 ++ rest)) :=
  ⟨rfl, write_failure_fatal (fun _ => true) false .accessible "x" rfl⟩

/-- C9: with the flag set, each reporter's output is a function of the
flag value, the importance arm and the message alone: there is a single
byte string that a call appends to any sink state, so two calls with
identical arguments and flag state append byte-identical output, and a
repeated call appends that same string again. -/
theorem reporters_deterministic (b : Bool) (imp : Importance) (m : String) :
    (∃ o : String, ∀ buf : String,
        infoReport (some b) imp m buf = some (buf ++ o) ∧
        (infoReport (some b) imp m buf).bind (infoReport (some b) imp m) =
          some ((buf ++ o) ++ o)) ∧
    (∃ p e : String, ∀ w : Streams,
        warningReport (some b) m w = some ⟨w.out ++ p, w.err ++ e⟩) := by
  constructor
  · have key : ∃ o : String, ∀ buf : String,
        infoReport (some b) imp m buf = some (buf ++ o) := by
      cases imp with
      | accessible =>
          cases b with
          | false =>
              exact ⟨infoHelperStr ++ (m ++ "\n"), fun buf => by
                simp [infoReport, String.append_assoc]⟩
          | true => exact ⟨m ++ "\n", fun buf => rfl⟩
      | inaccessible =>
          cases b with
          | false =>
              exact ⟨infoHelperStr ++ (m ++ "\n"), fun buf => by
                simp [infoReport, String.append_assoc]⟩
          | true =>
              exact ⟨"", fun buf => by simp [infoReport, String.append_empty]⟩
    obtain ⟨o, ho⟩ := key
    refine ⟨o, fun buf => ⟨ho buf, ?_⟩⟩
    rw [ho buf]
    exact ho (buf ++ o)
  · exact ⟨warnPrefixStr b, m ++ "\n", fun w => warningReport_some b m w⟩

/-- C10: the bytes `warning!` sends to standard error are the same for
both flag values — exactly the message plus a newline appended to the
stream — while the flag only selects the colored prefix appended to
standard output. -/
theorem warning_stderr_flag_independent (m : String) (w : Streams) :
    (warningReport (some true) m w).map Streams.err =
      (warningReport (some false) m w).map Streams.err ∧
    (∀ b, (warningReport (some b) m w).map Streams.err =
      some (w.err ++ (m ++ "\n"))) ∧
    (∀ b, (warningReport (some b) m w).map Streams.out =
      some (w.out ++ warnPrefixStr b)) := by
  refine ⟨?_, fun b => ?_, fun b => ?_⟩ <;>
    simp [warningReport_some]

end Ouch
